import Mathlib

/-
Verification of the placement-decision subsystem of the Form-Builder
repository: the geometric hit classifier and the placement resolver of
src/components/Canvas/components/DragDropReorderingItem.tsx, and the
DeleteZone drop handler.

Coordinates and box dimensions are modelled as rationals; the JavaScript
literal 0.3 is modelled exactly as 3/10.
-/

/-- Zone enumerates the discrete hover positions kept in the component's
hoverPosition state: 'none' | 'top' | 'bottom' | 'left' | 'right' | 'center'. -/
inductive Zone where
  | none
  | top
  | bottom
  | left
  | right
  | center
deriving DecidableEq, Repr

/-- Bounding box returned by getBoundingClientRect, restricted to the four
fields the component reads. -/
structure Box where
  width : ℚ
  height : ℚ
  left : ℚ
  top : ℚ
deriving DecidableEq, Repr

/-- Pointer client coordinates, as returned by monitor.getClientOffset(). -/
structure Pointer where
  x : ℚ
  y : ℚ
deriving DecidableEq, Repr

/-- Hit classifier inlined twice in the hover handler (lines 95-119 for the
palette/row-member path and lines 144-171 for the reorder path): translate the
pointer to box-local coordinates, compute 30 percent edge thresholds, and test
top, bottom, left, right in order with first match winning, else center. -/
def classify (clientOffset : Pointer) (hoverBoundingRect : Box) : Zone :=
  let width := hoverBoundingRect.width
  let height := hoverBoundingRect.height
  let x := clientOffset.x - hoverBoundingRect.left
  let y := clientOffset.y - hoverBoundingRect.top
  let edgeZone : ℚ := 3 / 10
  let topZone := height * edgeZone
  let bottomZone := height * (1 - edgeZone)
  let leftZone := width * edgeZone
  let rightZone := width * (1 - edgeZone)
  if y < topZone then Zone.top
  else if y > bottomZone then Zone.bottom
  else if x < leftZone then Zone.left
  else if x > rightZone then Zone.right
  else Zone.center

/-- Component node of the form tree (FormComponentData), restricted to the
fields this subsystem reads: id, type, label and the optional children list. -/
inductive FormComponentData where
  | mk (id : String) (type : String) (label : String)
       (children : Option (List FormComponentData))

def FormComponentData.id : FormComponentData → String
  | FormComponentData.mk i _ _ _ => i

def FormComponentData.type : FormComponentData → String
  | FormComponentData.mk _ t _ _ => t

def FormComponentData.label : FormComponentData → String
  | FormComponentData.mk _ _ l _ => l

def FormComponentData.children : FormComponentData → Option (List FormComponentData)
  | FormComponentData.mk _ _ _ c => c

/-- Parent-row lookup (findParentRowLayout, lines 44-53): linear scan over
allComponents for the first node of type 'horizontal_layout' whose children
list contains a child with the target's id. -/
def findParentRowLayout (allComponents : List FormComponentData)
    (targetComponent : FormComponentData) : Option FormComponentData :=
  allComponents.find? (fun comp =>
    comp.type == "horizontal_layout" &&
      (match comp.children with
       | Option.some children =>
           children.any (fun child => child.id == targetComponent.id)
       | Option.none => false))

/-- Drag payload as duck-typed by the hover/drop handlers: a type string, an
id, and an optional carried component. Its mutable index field is threaded
separately as explicit state (itemIndex). -/
structure DragItem where
  type : String
  id : String
  component : Option FormComponentData

/-- Palette-origin test (line 83): no carried component and a truthy type
string (a string is truthy exactly when it is nonempty). -/
def isPaletteComponent (item : DragItem) : Bool :=
  item.component.isNone && item.type != ""

/-- Row-member-origin test (line 84): type 'horizontal-component' and a
carried component. -/
def isHorizontalComponent (item : DragItem) : Bool :=
  item.type == "horizontal-component" && item.component.isSome

/-- Structural mutation requests emitted through the callback props:
onMoveComponent, onCreateRowLayout, onAddToRowLayout. -/
inductive MutationCall where
  | move (dragIndex hoverIndex : Nat)
  | createRow (dragged target : FormComponentData) (position : Zone)
  | addToRow (dragged row : FormComponentData) (position : Zone)

/-- Result of one hover tick: the new hoverPosition state, the (possibly
updated) mutable item.index, and the mutation calls issued during the tick. -/
structure HoverResult where
  hoverPosition : Zone
  itemIndex : Nat
  calls : List MutationCall

/-- Hover handler (lines 77-195). Inputs: the component's own list index,
ref.current's bounding box (none when unmounted), the monitor's client offset
(none when unavailable), the drag item, the item's mutable index, and the
current hoverPosition state. -/
def hover (index : Nat) (refCurrent : Option Box) (clientOffset : Option Pointer)
    (item : DragItem) (itemIndex : Nat) (hoverPosition : Zone) : HoverResult :=
  match refCurrent with
  | Option.none => HoverResult.mk hoverPosition itemIndex []
  | Option.some hoverBoundingRect =>
    if isPaletteComponent item || isHorizontalComponent item then
      match clientOffset with
      | Option.none => HoverResult.mk Zone.none itemIndex []
      | Option.some offset =>
          HoverResult.mk (classify offset hoverBoundingRect) itemIndex []
    else
      let dragIndex := itemIndex
      let hoverIndex := index
      if dragIndex = hoverIndex then
        HoverResult.mk Zone.none itemIndex []
      else
        match clientOffset with
        | Option.none => HoverResult.mk Zone.none itemIndex []
        | Option.some offset =>
          let position := classify offset hoverBoundingRect
          if position = Zone.top ∨ position = Zone.bottom then
            let hoverMiddleY := hoverBoundingRect.height / 2
            let hoverClientY := offset.y - hoverBoundingRect.top
            if dragIndex < hoverIndex ∧ hoverClientY < hoverMiddleY then
              HoverResult.mk position itemIndex []
            else if dragIndex > hoverIndex ∧ hoverClientY > hoverMiddleY then
              HoverResult.mk position itemIndex []
            else
              HoverResult.mk position hoverIndex [MutationCall.move dragIndex hoverIndex]
          else
            HoverResult.mk position itemIndex []

/-- Result of the drop handler: the hoverPosition state after the handler
(always reset) and the mutation calls issued. -/
structure DropResult where
  hoverPosition : Zone
  calls : List MutationCall

/-- Drop handler (lines 196-240). The optional callback props
onAddToRowLayout and onCreateRowLayout are modelled by presence flags; the
cached hoverPosition state is read as finalPosition and then reset to none. -/
def drop (component : FormComponentData) (allComponents : List FormComponentData)
    (hasAddToRowLayout hasCreateRowLayout : Bool)
    (item : DragItem) (hoverPosition : Zone) : DropResult :=
  let finalPosition := hoverPosition
  if isPaletteComponent item then
    DropResult.mk Zone.none []
  else if isHorizontalComponent item then
    DropResult.mk Zone.none []
  else
    match item.component with
    | Option.none => DropResult.mk Zone.none []
    | Option.some draggedComponent =>
      if finalPosition = Zone.left ∨ finalPosition = Zone.right then
        match findParentRowLayout allComponents component with
        | Option.some parentRowLayout =>
          if hasAddToRowLayout then
            DropResult.mk Zone.none
              [MutationCall.addToRow draggedComponent parentRowLayout finalPosition]
          else if hasCreateRowLayout then
            DropResult.mk Zone.none
              [MutationCall.createRow draggedComponent component finalPosition]
          else
            DropResult.mk Zone.none []
        | Option.none =>
          if hasCreateRowLayout then
            DropResult.mk Zone.none
              [MutationCall.createRow draggedComponent component finalPosition]
          else
            DropResult.mk Zone.none []
      else
        DropResult.mk Zone.none []

/-- Events a DragDropReorderingItem can observe during one gesture. The
component registers handlers only for hover and drop; a pointer-leave has no
handler in the source and therefore leaves the component state untouched. -/
inductive GestureEvent where
  | hoverTick (refCurrent : Option Box) (clientOffset : Option Pointer)
  | pointerLeave
  | dropEv

/-- Per-item state threaded through a gesture: the hoverPosition state, the
drag item's mutable index, and the mutation calls accumulated so far. -/
structure ItemState where
  hoverPosition : Zone
  itemIndex : Nat
  calls : List MutationCall

/-- Static context of a gesture over one DragDropReorderingItem: the item's
list index, the component it renders, the full component list, the presence
of the two optional row callbacks, and the drag payload. -/
structure GestureCtx where
  componentIndex : Nat
  component : FormComponentData
  allComponents : List FormComponentData
  hasAddToRowLayout : Bool
  hasCreateRowLayout : Bool
  item : DragItem

/-- One step of the gesture state machine, dispatching to the hover and drop
handlers; pointerLeave is the identity because the source registers no
handler for it. -/
def step (ctx : GestureCtx) (s : ItemState) : GestureEvent → ItemState
  | GestureEvent.hoverTick refCurrent clientOffset =>
      let r := hover ctx.componentIndex refCurrent clientOffset ctx.item
                 s.itemIndex s.hoverPosition
      ItemState.mk r.hoverPosition r.itemIndex (s.calls ++ r.calls)
  | GestureEvent.pointerLeave => s
  | GestureEvent.dropEv =>
      let r := drop ctx.component ctx.allComponents ctx.hasAddToRowLayout
                 ctx.hasCreateRowLayout ctx.item s.hoverPosition
      ItemState.mk r.hoverPosition s.itemIndex (s.calls ++ r.calls)

/-- Run a sequence of gesture events from a starting state. -/
def runGesture (ctx : GestureCtx) (s : ItemState) : List GestureEvent → ItemState
  | [] => s
  | e :: es => runGesture ctx (step ctx s e) es

/-- Payload dropped on the DeleteZone (src/unnamed/part_000). -/
structure DeleteItem where
  type : String
  id : String

/-- DeleteZone drop handler (part_000 lines 11-17): call onDelete(item.id)
when the payload type is exactly 'existing-component' and the id is truthy
(a nonempty string); the result lists the ids passed to onDelete. -/
def deleteZoneDropCalls (item : DeleteItem) : List String :=
  if item.type == "existing-component" && item.id != "" then [item.id] else []

/-- Concrete leaf component used in witnesses. -/
def compA : FormComponentData := FormComponentData.mk "a" "text_input" "A" Option.none

/-- Concrete leaf component used in witnesses. -/
def compB : FormComponentData := FormComponentData.mk "b" "text_input" "B" Option.none

/-- Concrete row layout containing compB, used in witnesses. -/
def rowR : FormComponentData :=
  FormComponentData.mk "r" "horizontal_layout" "Row" (Option.some [compB])

/-- Concrete reorder-origin drag item carrying compA. -/
def itemA : DragItem := DragItem.mk "reorder-component" "a" (Option.some compA)

/-- Concrete palette-origin drag item: a type tag and no carried component. -/
def paletteItem : DragItem := DragItem.mk "text_input" "" Option.none

/-- Concrete 100 by 100 box at the origin. -/
def box100 : Box := Box.mk 100 100 0 0

example : classify (Pointer.mk 50 10) box100 = Zone.top := by
  simp [classify, box100]
  norm_num

example : classify (Pointer.mk 10 50) box100 = Zone.left := by
  simp [classify, box100]
  norm_num

/-- C1: the hit classifier evaluates the zone checks in the fixed order top,
bottom, left, right, center with first match winning, over box-local
coordinates and margin fraction 3/10; and for the box of width 100, height
100 at the origin, pointer (50, 10) classifies as top even though x is
centered. -/
theorem C1_classify_order (p : Pointer) (b : Box) :
    classify p b =
      (if p.y - b.top < b.height * (3 / 10) then Zone.top
       else if p.y - b.top > b.height * (7 / 10) then Zone.bottom
       else if p.x - b.left < b.width * (3 / 10) then Zone.left
       else if p.x - b.left > b.width * (7 / 10) then Zone.right
       else Zone.center)
    ∧ classify (Pointer.mk 50 10) (Box.mk 100 100 0 0) = Zone.top := by
  constructor
  · simp only [classify]
    norm_num
  · simp [classify]
    norm_num

/-- C9: all four threshold comparisons are strict, so a pointer lying exactly
on a threshold is never assigned that band, and the exact geometric center of
any box with nonnegative dimensions (including a zero-sized box) classifies
as center. -/
theorem C9_strict_thresholds (p : Pointer) (b : Box) :
    (p.y - b.top = b.height * (3 / 10) → classify p b ≠ Zone.top)
    ∧ (p.y - b.top = b.height * (7 / 10) → classify p b ≠ Zone.bottom)
    ∧ (p.x - b.left = b.width * (3 / 10) → classify p b ≠ Zone.left)
    ∧ (p.x - b.left = b.width * (7 / 10) → classify p b ≠ Zone.right)
    ∧ (0 ≤ b.width → 0 ≤ b.height →
        classify (Pointer.mk (b.left + b.width / 2) (b.top + b.height / 2)) b
          = Zone.center) := by
  refine ⟨?_, ?_, ?_, ?_, ?_⟩
  · intro h
    simp only [classify]
    split_ifs with h1 h2 h3 h4
    · rw [h] at h1
      norm_num at h1
    all_goals decide
  · intro h
    simp only [classify]
    split_ifs with h1 h2 h3 h4
    · decide
    · rw [h] at h2
      norm_num at h2
    all_goals decide
  · intro h
    simp only [classify]
    split_ifs with h1 h2 h3 h4
    · decide
    · decide
    · rw [h] at h3
      norm_num at h3
    all_goals decide
  · intro h
    simp only [classify]
    split_ifs with h1 h2 h3 h4
    · decide
    · decide
    · decide
    · rw [h] at h4
      norm_num at h4
    · decide
  · intro hw hh
    simp only [classify]
    split_ifs with h1 h2 h3 h4
    · exfalso
      simp only [Pointer.mk.injEq] at h1 ⊢
      norm_num at h1
      linarith
    · exfalso
      norm_num at h2
      linarith
    · exfalso
      norm_num at h3
      linarith
    · exfalso
      norm_num at h4
      linarith
    · rfl

/-- C9 witness: concrete instances of the strict-threshold and exact-center
facts, obtained from the theorem at the 100 by 100 box. -/
theorem C9_strict_thresholds_witness :
    classify (Pointer.mk 50 30) box100 ≠ Zone.top
    ∧ classify (Pointer.mk 50 50) box100 = Zone.center := by
  constructor
  · exact (C9_strict_thresholds (Pointer.mk 50 30) box100).1 (by
      simp [box100]; norm_num)
  · have := (C9_strict_thresholds (Pointer.mk 50 50) box100).2.2.2.2
      (by simp [box100]) (by simp [box100])
    norm_num [box100] at this ⊢
    exact this

/-- C6: when the client offset is unavailable on a hover tick (while the item
is mounted), the computed zone is none, no mutation call is issued, and the
item index is untouched, on every hover path. -/
theorem C6_missing_offset_safe (index itemIndex : Nat) (b : Box)
    (item : DragItem) (z : Zone) :
    hover index (Option.some b) Option.none item itemIndex z
      = HoverResult.mk Zone.none itemIndex [] := by
  simp only [hover]
  split_ifs <;> rfl

/-- C5: for every palette-origin or row-member-origin drag payload, neither
the hover handler nor the drop handler issues any structural mutation call;
hover only computes and exposes the zone via the classifier. -/
theorem C5_palette_row_member_delegation (item : DragItem)
    (h : isPaletteComponent item = true ∨ isHorizontalComponent item = true) :
    (∀ (index itemIndex : Nat) (refCurrent : Option Box)
        (clientOffset : Option Pointer) (z : Zone),
        (hover index refCurrent clientOffset item itemIndex z).calls = []
        ∧ (hover index refCurrent clientOffset item itemIndex z).itemIndex = itemIndex)
    ∧ (∀ (comp : FormComponentData) (allComps : List FormComponentData)
        (a c : Bool) (z : Zone),
        (drop comp allComps a c item z).calls = []
        ∧ (drop comp allComps a c item z).hoverPosition = Zone.none)
    ∧ (∀ (index itemIndex : Nat) (b : Box) (p : Pointer) (z : Zone),
        (hover index (Option.some b) (Option.some p) item itemIndex z).hoverPosition
          = classify p b) := by
  have hb : (isPaletteComponent item || isHorizontalComponent item) = true := by
    rcases h with h | h <;> simp [h]
  refine ⟨?_, ?_, ?_⟩
  · intro index itemIndex refCurrent clientOffset z
    cases refCurrent with
    | none => exact ⟨rfl, rfl⟩
    | some b =>
      cases clientOffset with
      | none => simp [hover, hb]
      | some p => simp [hover, hb]
  · intro comp allComps a c z
    by_cases hp : isPaletteComponent item = true
    · simp [drop, hp]
    · have hh : isHorizontalComponent item = true := by
        rcases h with h | h
        · exact absurd h hp
        · exact h
      simp [drop, hp, hh]
  · intro index itemIndex b p z
    simp [hover, hb]

/-- C5 witness: a concrete palette payload satisfies the origin hypothesis,
and its drop issues no mutation calls. -/
theorem C5_palette_row_member_delegation_witness :
    (isPaletteComponent paletteItem = true ∨ isHorizontalComponent paletteItem = true)
    ∧ (drop compB [] true true paletteItem Zone.left).calls = [] := by
  refine ⟨Or.inl (by decide), ?_⟩
  exact ((C5_palette_row_member_delegation paletteItem (Or.inl (by decide))).2.1
    compB [] true true Zone.left).1

/-- C10: the DeleteZone drop handler calls onDelete(item.id) exactly when the
payload type is the string existing-component and the id is a nonempty
string; otherwise it issues zero deletion requests. -/
theorem C10_delete_zone_guard (item : DeleteItem) :
    (deleteZoneDropCalls item = [item.id]
        ↔ item.type = "existing-component" ∧ item.id ≠ "")
    ∧ (¬(item.type = "existing-component" ∧ item.id ≠ "") →
        deleteZoneDropCalls item = []) := by
  by_cases hc : item.type = "existing-component" ∧ item.id ≠ ""
  · obtain ⟨h1, h2⟩ := hc
    simp [deleteZoneDropCalls, h1, h2]
  · have hfalse : deleteZoneDropCalls item = [] := by
      have hcond : ¬(((item.type == "existing-component") && (item.id != "")) = true) := by
        intro hb
        apply hc
        simpa using hb
      simp [deleteZoneDropCalls, hcond]
    simp [hfalse, hc]

/-- C10 witness: a payload of a different type produces zero deletion
requests, via the theorem at a concrete input. -/
theorem C10_delete_zone_guard_witness :
    ¬((DeleteItem.mk "text_input" "x").type = "existing-component"
        ∧ (DeleteItem.mk "text_input" "x").id ≠ "")
    ∧ deleteZoneDropCalls (DeleteItem.mk "text_input" "x") = [] := by
  refine ⟨by decide, ?_⟩
  exact (C10_delete_zone_guard (DeleteItem.mk "text_input" "x")).2 (by decide)

/-- C2: at a reorder-origin drop with final zone left or right, with both row
callbacks supplied, the handler issues exactly one addToRow call (and no
createRow call) when the target has a parent row layout, and exactly one
createRow call (and no move call) when it has none. -/
theorem C2_reorder_left_right_drop (item : DragItem) (dragged comp : FormComponentData)
    (allComps : List FormComponentData) (z : Zone)
    (hcomp : item.component = Option.some dragged)
    (htype : item.type ≠ "horizontal-component")
    (hz : z = Zone.left ∨ z = Zone.right) :
    (∀ R, findParentRowLayout allComps comp = Option.some R →
        (drop comp allComps true true item z).calls
          = [MutationCall.addToRow dragged R z])
    ∧ (findParentRowLayout allComps comp = Option.none →
        (drop comp allComps true true item z).calls
          = [MutationCall.createRow dragged comp z]) := by
  have hp : isPaletteComponent item = false := by
    simp [isPaletteComponent, hcomp]
  have hh : isHorizontalComponent item = false := by
    simp [isHorizontalComponent, htype]
  constructor
  · intro R hR
    simp [drop, hp, hh, hcomp, hR, hz]
  · intro hR
    simp [drop, hp, hh, hcomp, hR, hz]

/-- C2 witness: dragging compA onto compB, which sits in the row rowR, with
final zone right, issues exactly the one addToRow call. -/
theorem C2_reorder_left_right_drop_witness :
    (itemA.component = Option.some compA
      ∧ itemA.type ≠ "horizontal-component"
      ∧ findParentRowLayout [rowR] compB = Option.some rowR)
    ∧ (drop compB [rowR] true true itemA Zone.right).calls
        = [MutationCall.addToRow compA rowR Zone.right] := by
  refine ⟨⟨rfl, by decide, rfl⟩, ?_⟩
  exact (C2_reorder_left_right_drop itemA compA compB [rowR] Zone.right rfl
    (by decide) (Or.inr rfl)).1 rowR rfl

/-- C8: in the same left/right reorder-drop branch, when the target does have
a parent row layout but the onAddToRowLayout callback is absent, the handler
falls through and issues a createRow call for the dragged and target
components instead. -/
theorem C8_fallthrough_create_row (item : DragItem) (dragged comp R : FormComponentData)
    (allComps : List FormComponentData) (z : Zone)
    (hcomp : item.component = Option.some dragged)
    (htype : item.type ≠ "horizontal-component")
    (hrow : findParentRowLayout allComps comp = Option.some R)
    (hz : z = Zone.left ∨ z = Zone.right) :
    (drop comp allComps false true item z).calls
      = [MutationCall.createRow dragged comp z] := by
  have hp : isPaletteComponent item = false := by
    simp [isPaletteComponent, hcomp]
  have hh : isHorizontalComponent item = false := by
    simp [isHorizontalComponent, htype]
  simp [drop, hp, hh, hcomp, hrow, hz]

/-- C8 witness: with compB inside rowR but no addToRow callback, dropping
compA at zone left requests a new row over compA and compB. -/
theorem C8_fallthrough_create_row_witness :
    (itemA.component = Option.some compA
      ∧ itemA.type ≠ "horizontal-component"
      ∧ findParentRowLayout [rowR] compB = Option.some rowR)
    ∧ (drop compB [rowR] false true itemA Zone.left).calls
        = [MutationCall.createRow compA compB Zone.left] := by
  refine ⟨⟨rfl, by decide, rfl⟩, ?_⟩
  exact C8_fallthrough_create_row itemA compA compB rowR [rowR] Zone.left rfl
    (by decide) rfl (Or.inl rfl)

/-- C3 counterexample: with dragIndex 2 and hoverIndex 5 over the 100 by 100
box, a reorder hover tick at y equal to six tenths of the height (pointer
(50, 60)) issues no move call at all and leaves the tracked index at 2,
because the computed zone at that height is not top or bottom; the claim says
this tick commits exactly one requestMove(2, 5). -/
theorem C3_midband_no_commit :
    (hover 5 (Option.some box100) (Option.some (Pointer.mk 50 60))
        itemA 2 Zone.none).calls = []
    ∧ (hover 5 (Option.some box100) (Option.some (Pointer.mk 50 60))
        itemA 2 Zone.none).itemIndex = 2 := by
  have hst : ¬(("reorder-component" : String) = "horizontal-component") := by decide
  have hzc : ¬(Zone.center = Zone.top ∨ Zone.center = Zone.bottom) := by decide
  norm_num [hover, classify, isPaletteComponent, isHorizontalComponent,
    itemA, compA, box100, hst, hzc]

/-- C3 amended: with dragIndex 2, hoverIndex 5 over the 100 by 100 box, a
hover tick at four tenths of the height does not commit a move; a commit
additionally requires the computed zone to be top or bottom, so a tick at
three quarters of the height (inside the bottom band and past the midpoint)
commits exactly one requestMove(2, 5) and sets the tracked index to 5; and in
general a downward move commits only when y is at or past the vertical
midpoint and an upward move only when y is at or above it. -/
theorem C3_directional_guard :
    ((hover 5 (Option.some box100) (Option.some (Pointer.mk 50 40))
        itemA 2 Zone.none).calls = [])
    ∧ ((hover 5 (Option.some box100) (Option.some (Pointer.mk 50 75))
          itemA 2 Zone.none).calls = [MutationCall.move 2 5]
       ∧ (hover 5 (Option.some box100) (Option.some (Pointer.mk 50 75))
          itemA 2 Zone.none).itemIndex = 5)
    ∧ (∀ (index itemIndex : Nat) (b : Box) (p : Pointer) (item : DragItem)
        (z : Zone),
        (hover index (Option.some b) (Option.some p) item itemIndex z).calls ≠ [] →
          (itemIndex < index → b.height / 2 ≤ p.y - b.top)
          ∧ (index < itemIndex → p.y - b.top ≤ b.height / 2)) := by
  have hst : ¬(("reorder-component" : String) = "horizontal-component") := by decide
  have hzc : ¬(Zone.center = Zone.top ∨ Zone.center = Zone.bottom) := by decide
  have hzb : (Zone.bottom = Zone.top ∨ Zone.bottom = Zone.bottom) := by decide
  refine ⟨?_, ?_, ?_⟩
  · norm_num [hover, classify, isPaletteComponent, isHorizontalComponent,
      itemA, compA, box100, hst, hzc]
  · norm_num [hover, classify, isPaletteComponent, isHorizontalComponent,
      itemA, compA, box100, hst, hzb]
  · intro index itemIndex b p item z hcalls
    by_cases hcond : (isPaletteComponent item || isHorizontalComponent item) = true
    · exact absurd (by simp [hover, hcond]) hcalls
    · rw [Bool.not_eq_true] at hcond
      by_cases heq : itemIndex = index
      · exact absurd (by simp [hover, hcond, heq]) hcalls
      · by_cases htb : classify p b = Zone.top ∨ classify p b = Zone.bottom
        · by_cases hg1 : itemIndex < index ∧ p.y - b.top < b.height / 2
          · exact absurd (by simp [hover, hcond, heq, htb, hg1]) hcalls
          · by_cases hg2 : itemIndex > index ∧ p.y - b.top > b.height / 2
            · exact absurd (by simp [hover, hcond, heq, htb, hg1, hg2]) hcalls
            · constructor
              · intro hlt
                by_contra hy
                push_neg at hy
                exact hg1 ⟨hlt, hy⟩
              · intro hgt
                by_contra hy
                push_neg at hy
                exact hg2 ⟨hgt, hy⟩
        · exact absurd (by simp [hover, hcond, heq, htb]) hcalls

/-- C3 witness: the committing tick at (50, 75) has a nonempty call list, and
the directional-guard necessary conditions instantiate there. -/
theorem C3_directional_guard_witness :
    ((hover 5 (Option.some box100) (Option.some (Pointer.mk 50 75))
        itemA 2 Zone.none).calls ≠ [])
    ∧ ((2 < 5 → box100.height / 2 ≤ (Pointer.mk 50 75).y - box100.top)
       ∧ (5 < 2 → (Pointer.mk 50 75).y - box100.top ≤ box100.height / 2)) := by
  have hne : (hover 5 (Option.some box100) (Option.some (Pointer.mk 50 75))
      itemA 2 Zone.none).calls ≠ [] := by
    have hst : ¬(("reorder-component" : String) = "horizontal-component") := by decide
    norm_num [hover, classify, isPaletteComponent, isHorizontalComponent,
      itemA, compA, box100, hst]
  exact ⟨hne,
    C3_directional_guard.2.2 5 2 box100 (Pointer.mk 50 75) itemA Zone.none hne⟩

/-- Appending one event to a gesture runs it as a final step. -/
theorem runGesture_append (ctx : GestureCtx) (evs : List GestureEvent)
    (e : GestureEvent) :
    ∀ s, runGesture ctx s (evs ++ [e]) = step ctx (runGesture ctx s evs) e := by
  induction evs with
  | nil => intro s; rfl
  | cons x xs ih =>
    intro s
    simp only [List.cons_append, runGesture]
    exact ih _

/-- During a self-gesture (the drag item's tracked index equals the hovered
component's index), any sequence of hover ticks and pointer-leaves keeps the
state at zone none, the original index, and an empty call list. -/
theorem selfGestureInvariant (ctx : GestureCtx)
    (hcomp : ctx.item.component.isSome = true)
    (htype : ctx.item.type ≠ "horizontal-component") :
    ∀ (evs : List GestureEvent), (∀ e ∈ evs, e ≠ GestureEvent.dropEv) →
      runGesture ctx (ItemState.mk Zone.none ctx.componentIndex []) evs
        = ItemState.mk Zone.none ctx.componentIndex [] := by
  have hcond : (isPaletteComponent ctx.item || isHorizontalComponent ctx.item)
      = false := by
    obtain ⟨d, hd⟩ := Option.isSome_iff_exists.mp hcomp
    simp [isPaletteComponent, isHorizontalComponent, hd, htype]
  intro evs
  induction evs with
  | nil => intro _; rfl
  | cons e es ih =>
    intro hnodrop
    have he := hnodrop e (List.mem_cons_self e es)
    have hes : ∀ x ∈ es, x ≠ GestureEvent.dropEv :=
      fun x hx => hnodrop x (List.mem_cons_of_mem e hx)
    have hstep : step ctx (ItemState.mk Zone.none ctx.componentIndex []) e
        = ItemState.mk Zone.none ctx.componentIndex [] := by
      cases e with
      | hoverTick rb off =>
        cases rb with
        | none => rfl
        | some b => simp [step, hover, hcond]
      | pointerLeave => rfl
      | dropEv => exact absurd rfl he
    simp only [runGesture]
    rw [hstep]
    exact ih hes

/-- C4: a reorder-origin gesture dropped onto itself issues zero mutation
calls: every hover tick over the dragged item itself resets the zone to none
without a move call, and the final drop, seeing zone none, issues no
createRow or addToRow call. -/
theorem C4_self_drop_no_mutations (ctx : GestureCtx) (evs : List GestureEvent)
    (hcomp : ctx.item.component.isSome = true)
    (htype : ctx.item.type ≠ "horizontal-component")
    (hnodrop : ∀ e ∈ evs, e ≠ GestureEvent.dropEv) :
    (runGesture ctx (ItemState.mk Zone.none ctx.componentIndex [])
        (evs ++ [GestureEvent.dropEv])).calls = []
    ∧ (runGesture ctx (ItemState.mk Zone.none ctx.componentIndex [])
        (evs ++ [GestureEvent.dropEv])).hoverPosition = Zone.none := by
  obtain ⟨d, hd⟩ := Option.isSome_iff_exists.mp hcomp
  have hp : isPaletteComponent ctx.item = false := by
    simp [isPaletteComponent, hd]
  have hh : isHorizontalComponent ctx.item = false := by
    simp [isHorizontalComponent, htype]
  have hzn : ¬(Zone.none = Zone.left ∨ Zone.none = Zone.right) := by decide
  rw [runGesture_append ctx evs GestureEvent.dropEv,
    selfGestureInvariant ctx hcomp htype evs hnodrop]
  simp [step, drop, hp, hh, hd, hzn]

/-- Concrete self-gesture context: the item renders compA and the drag
payload carries compA. -/
def ctxSelf : GestureCtx := GestureCtx.mk 2 compA [compA] true true itemA

/-- C4 witness: a one-tick self-gesture followed by a drop issues zero
mutation calls, via the theorem at a concrete input. -/
theorem C4_self_drop_no_mutations_witness :
    (ctxSelf.item.component.isSome = true
      ∧ ctxSelf.item.type ≠ "horizontal-component"
      ∧ (∀ e ∈ [GestureEvent.hoverTick (Option.some box100)
            (Option.some (Pointer.mk 10 10))], e ≠ GestureEvent.dropEv))
    ∧ (runGesture ctxSelf (ItemState.mk Zone.none ctxSelf.componentIndex [])
        ([GestureEvent.hoverTick (Option.some box100) (Option.some (Pointer.mk 10 10))]
          ++ [GestureEvent.dropEv])).calls = [] := by
  have h3 : ∀ e ∈ [GestureEvent.hoverTick (Option.some box100)
      (Option.some (Pointer.mk 10 10))], e ≠ GestureEvent.dropEv := by
    intro e he
    rw [List.mem_singleton] at he
    subst he
    intro hco
    cases hco
  refine ⟨⟨rfl, by decide, h3⟩, ?_⟩
  exact (C4_self_drop_no_mutations ctxSelf _ rfl (by decide) h3).1

/-- Concrete gesture context used in the C7 counterexample. -/
def ctxLeave : GestureCtx := GestureCtx.mk 0 compB [] true true itemA

/-- C7 counterexample: the component registers no pointer-leave handler, so
when the pointer leaves the hovered item a cached zone of left stays left
instead of being reset to none, contradicting the claim that the zone is
reset to none when the pointer leaves the hovered item. -/
theorem C7_leave_keeps_zone :
    (step ctxLeave (ItemState.mk Zone.left 0 [])
        GestureEvent.pointerLeave).hoverPosition ≠ Zone.none := by
  intro h
  exact Zone.noConfusion h

/-- C7 amended: over a gesture, the cached zone is recomputed on every hover
tick while the item is mounted (the new zone never depends on the previous
one), and is reset to none by the drop handler; it is NOT reset when the
pointer merely leaves the hovered item, where the state is untouched. -/
theorem C7_zone_lifecycle :
    (∀ (comp : FormComponentData) (allComps : List FormComponentData)
        (a c : Bool) (item : DragItem) (z : Zone),
        (drop comp allComps a c item z).hoverPosition = Zone.none)
    ∧ (∀ (index itemIndex : Nat) (b : Box) (off : Option Pointer)
        (item : DragItem) (z z' : Zone),
        (hover index (Option.some b) off item itemIndex z).hoverPosition
          = (hover index (Option.some b) off item itemIndex z').hoverPosition)
    ∧ (∀ (ctx : GestureCtx) (s : ItemState),
        step ctx s GestureEvent.pointerLeave = s) := by
  refine ⟨?_, ?_, ?_⟩
  · intro comp allComps a c item z
    simp only [drop]
    repeat' split
    all_goals rfl
  · intro index itemIndex b off item z z'
    rfl
  · intro ctx s
    rfl
